import Mathlib

set_option maxHeartbeats 1000000

/-!
Verification development for the Roblox Studio MCP bridge
(src/rbx_studio_server.rs, src/error.rs).

The source is an async Rust program.  The shallow embedding below makes
the shared mutable state (AppState behind a mutex) an explicit record and
models each handler as a pure state-passing function; each suspension
point of a handler splits the handler into an enqueue phase and a
receive phase, with the value delivered over the mpsc channel passed in
explicitly.  UUID values are modelled as natural numbers (the source only
compares them for equality), color_eyre error reports as strings, and
the watch notifier as a counter of completed send calls on the trigger.
-/

/-- Identifier type: the source uses 128-bit random Uuid values, only ever
compared for equality; modelled as Nat. -/
abbrev Uuid := Nat

deriving instance DecidableEq for Except

/-- The crate-local Result of src/error.rs specialised to String payloads:
the value carried over each mpsc channel is a Result of String, with the
color_eyre Report modelled as its message string. -/
abbrev RResult := Except String String

/-- Argument record of the run_code tool. -/
structure RunCode where
  command : String
deriving DecidableEq

/-- Argument record of the insert_model tool. -/
structure InsertModel where
  query : String
deriving DecidableEq

/-- Argument record of the delete_part tool. -/
structure DeletePart where
  part_name : String
deriving DecidableEq

/-- Argument record of the get_project_structure tool. -/
structure GetProjectStructure where
  detail : String
  max_depth : Option Nat
  root_path : Option String
deriving DecidableEq

/-- Tagged union over the supported tool operations (enum
ToolArgumentValues of the source). -/
inductive ToolArgumentValues where
  | RunCode (args : RunCode)
  | InsertModel (args : InsertModel)
  | DeletePart (args : DeletePart)
  | GetProjectStructure (args : GetProjectStructure)
deriving DecidableEq

/-- Command Envelope (struct ToolArguments of the source). -/
structure ToolArguments where
  args : ToolArgumentValues
  id : Option Uuid
deriving DecidableEq

/-- Result Message (struct RunCommandResponse of the source). -/
structure RunCommandResponse where
  response : String
  id : Uuid
deriving DecidableEq

/-- Model of the mpsc sender stored in output_map.  The only observable
property of the sender needed by the handlers is whether the receiving
half is still attached: UnboundedSender.send succeeds exactly when the
receiver has not been dropped. -/
structure PendingEntry where
  receiverAttached : Bool
deriving DecidableEq

/-- Shared Dispatch State (struct AppState of the source).  process_queue
is the VecDeque of undelivered Command Envelopes; output_map is the
HashMap from identifier to result-channel sender, modelled as an
association list without duplicate keys; trigger_count counts the send
calls completed on the watch trigger (each one wakes every blocked
waiter). -/
structure AppState where
  process_queue : List ToolArguments
  output_map : List (Uuid × PendingEntry)
  trigger_count : Nat
deriving DecidableEq

/-- HashMap.get on the association list. -/
def mapLookup (m : List (Uuid × PendingEntry)) (k : Uuid) : Option PendingEntry :=
  match m with
  | [] => none
  | (k1, v) :: rest => if k1 = k then some v else mapLookup rest k

/-- HashMap.remove on the association list: removes every binding of k
(a HashMap holds at most one). -/
def mapErase (m : List (Uuid × PendingEntry)) (k : Uuid) : List (Uuid × PendingEntry) :=
  m.filter (fun p => p.1 != k)

/-- HashMap.insert on the association list: replaces any previous binding. -/
def mapInsert (m : List (Uuid × PendingEntry)) (k : Uuid) (v : PendingEntry) :
    List (Uuid × PendingEntry) :=
  (k, v) :: mapErase m k

/-- Fixed local port constant of the source. -/
def STUDIO_PLUGIN_PORT : Nat := 44755

/-- Long-poll window of the Poll Endpoint, in seconds
(Duration.from_secs 15 in the source). -/
def LONG_POLL_DURATION : Nat := 15

/-- ToolArguments.with_id: stamps a freshly generated identifier onto the
envelope.  Uuid.new_v4 randomness is modelled by passing the fresh value
in. -/
def ToolArguments.with_id (t : ToolArguments) (fresh : Uuid) : ToolArguments × Uuid :=
  ({ args := t.args, id := some fresh }, fresh)

/-- ToolArguments.new: builds the envelope for a tool invocation and
stamps a fresh identifier. -/
def ToolArguments.new (args : ToolArgumentValues) (fresh : Uuid) : ToolArguments × Uuid :=
  ToolArguments.with_id { args := args, id := none } fresh

/-- Protocol-level tool answer (rmcp CallToolResult): a success or a
tool-level error, each carrying a list of text content blocks. -/
inductive CallToolResult where
  | success (content : List String)
  | error (content : List String)
deriving DecidableEq

/-- Enqueue phase of generic_tool_run: under the lock, push_back the
stamped envelope, insert the channel sender into output_map keyed by the
fresh identifier; then fire the trigger (the send on the watch channel
succeeds because AppState permanently holds the paired waiter, so a
receiver always exists). -/
def generic_tool_run_enqueue (s : AppState) (args : ToolArgumentValues) (fresh : Uuid) :
    AppState × Uuid :=
  let ci := ToolArguments.new args fresh
  ({ process_queue := s.process_queue ++ [ci.1],
     output_map := mapInsert s.output_map ci.2 { receiverAttached := true },
     trigger_count := s.trigger_count + 1 }, ci.2)

/-- Receive phase of generic_tool_run: rx.recv yielding none means the
channel closed with nothing delivered (internal error); otherwise the
map entry is removed and the received Result is translated, an Ok
payload into CallToolResult.success and an Err payload into
CallToolResult.error, both returned as a protocol-level Ok. -/
def generic_tool_run_finish (s : AppState) (id : Uuid) (received : Option RResult) :
    Except String (CallToolResult × AppState) :=
  match received with
  | none => .error "Could not receive response"
  | some result =>
    let s1 : AppState := { s with output_map := mapErase s.output_map id }
    match result with
    | .ok r => .ok (.success [r], s1)
    | .error e => .ok (.error [e], s1)

/-- One lock acquisition of the poll loop body, and the pop_front of the
relay loop: pops the queue head when present (process_queue.pop_front in
the source, used at both request_handler and dud_proxy_loop). -/
def try_dequeue (s : AppState) : Option ToolArguments × AppState :=
  match s.process_queue with
  | [] => (none, s)
  | t :: rest => (some t, { s with process_queue := rest })

/-- Outcome of one GET /request call: either a dequeued Command Envelope
served as a 200 JSON body, or the distinguished no-work outcome
(StatusCode.LOCKED with an empty body) when the long-poll window
elapses. -/
inductive RequestOutcome where
  | envelope (t : ToolArguments)
  | locked
deriving DecidableEq

/-- HTTP status of a poll outcome: 200 for an envelope, 423 (LOCKED) for
the no-work outcome. -/
def RequestOutcome.status : RequestOutcome → Nat
  | .envelope _ => 200
  | .locked => 423

/-- Whether the poll outcome body is empty: the envelope is serialised as
a JSON body, the no-work outcome carries String.new. -/
def RequestOutcome.bodyIsEmpty : RequestOutcome → Bool
  | .envelope _ => false
  | .locked => true

/-- request_handler: the loop body runs once per wake of the waiter, each
time observing the then-current shared state; the tokio timeout wrapping
the loop allows only finitely many wakes before the window elapses, so
the handler is a function of the finite list of states observed at
successive wakes.  The first observation with a non-empty queue pops its
head and returns it; if every observation inside the window has an empty
queue, the handler answers locked. -/
def request_handler_run : List AppState → RequestOutcome × Option AppState
  | [] => (.locked, none)
  | s :: rest =>
    match try_dequeue s with
    | (some t, s1) => (.envelope t, some s1)
    | (none, _) => request_handler_run rest

/-- An HTTP response as status code plus body text. -/
structure HttpResponse where
  status : Nat
  body : String
deriving DecidableEq

/-- Report.into_response of src/error.rs: every handler error is logged
and surfaced as 500 INTERNAL_SERVER_ERROR with the fixed body. -/
def Report.into_response (_err : String) : HttpResponse :=
  { status := 500, body := "Something went wrong" }

/-- response_handler (POST /response): looks up the identifier of the
posted Result Message in output_map; when absent the handler fails with
the Unknown ID report; when present the entry is removed and the Ok
response is sent into the channel, which fails exactly when the receiver
has detached.  Returns the handler result, the updated state, and the
value delivered to the waiting receiver, if any. -/
def response_handler (s : AppState) (payload : RunCommandResponse) :
    Except String Unit × AppState × Option RResult :=
  match mapLookup s.output_map payload.id with
  | none => (.error "Unknown ID", s, none)
  | some tx =>
    let s1 : AppState := { s with output_map := mapErase s.output_map payload.id }
    if tx.receiverAttached then
      (.ok (), s1, some (.ok payload.response))
    else
      (.error "channel closed", s1, none)

/-- response_handler as seen over HTTP: a handler Ok becomes 200 with an
empty body, a handler error goes through Report.into_response. -/
def response_handler_http (s : AppState) (payload : RunCommandResponse) :
    HttpResponse × AppState × Option RResult :=
  match response_handler s payload with
  | (.ok _, s1, d) => ({ status := 200, body := "" }, s1, d)
  | (.error e, s1, d) => (Report.into_response e, s1, d)

/-- Enqueue phase of proxy_handler (POST /proxy): fails when the
forwarded envelope has no identifier; otherwise pushes the envelope at
the queue tail and inserts the fresh channel sender keyed by that
identifier.  The source fires no trigger here. -/
def proxy_handler_enqueue (s : AppState) (command : ToolArguments) :
    Except String (AppState × Uuid) :=
  match command.id with
  | none => .error "Got proxy command with no id"
  | some id =>
    .ok ({ process_queue := s.process_queue ++ [command],
           output_map := mapInsert s.output_map id { receiverAttached := true },
           trigger_count := s.trigger_count }, id)

/-- Receive phase of proxy_handler: rx.recv yielding none is an error, a
delivered Err propagates as a handler error before the map entry is
removed, and a delivered Ok response removes the entry and returns the
Result Message carrying the same identifier. -/
def proxy_handler_receive (s : AppState) (id : Uuid) (received : Option RResult) :
    Except String (RunCommandResponse × AppState) :=
  match received with
  | none => .error "Could not receive response"
  | some (.error e) => .error e
  | some (.ok response) =>
    .ok ({ response := response, id := id },
         { s with output_map := mapErase s.output_map id })

/-- Outcome of the POST to the owner inside one relay iteration: the
transport call fails, or it succeeds and the reply decodes as a
RunCommandResponse, or it succeeds and decoding fails. -/
inductive TransportResult where
  | failure
  | replyOk (r : RunCommandResponse)
  | replyBad (e : String)
deriving DecidableEq

/-- Outcome of one iteration of the relay loop: the queue was empty and
the loop blocks on the waiter; or the iteration finished and the loop
continues with the given state; or an unwrap failed and the relay task
panicked. -/
inductive RelayOutcome where
  | idle
  | continued (s : AppState)
  | panicked
deriving DecidableEq

/-- One iteration of dud_proxy_loop.  Pops the queue head; on transport
failure the error is logged and the loop continues with the pending
entry left in place.  On a transport success the source unwraps in turn
the envelope identifier, the output_map removal, and the channel send of
the decoded reply (Ok response on decode success, the decode error
otherwise); each unwrap panics the relay task when it fails, and the
send fails exactly when the receiver has detached.  Returns the
iteration outcome and the value delivered to the waiting receiver, if
any. -/
def dud_proxy_iter (s : AppState) (transport : TransportResult) :
    RelayOutcome × Option RResult :=
  match try_dequeue s with
  | (none, _) => (.idle, none)
  | (some entry, s1) =>
    if transport = .failure then (.continued s1, none)
    else
      match entry.id with
      | none => (.panicked, none)
      | some id =>
        match mapLookup s1.output_map id with
        | none => (.panicked, none)
        | some tx =>
          let s2 : AppState := { s1 with output_map := mapErase s1.output_map id }
          let res : RResult :=
            match transport with
            | .replyOk r => .ok r.response
            | .replyBad e => .error e
            | .failure => .error ""
          if tx.receiverAttached then (.continued s2, some res)
          else (.panicked, none)

/-- State after k successive pops of the queue head. -/
def afterDequeues : Nat → AppState → AppState
  | 0, s => s
  | n + 1, s => afterDequeues n (try_dequeue s).2

/-- The envelope served by the k-th pop (counting from zero). -/
def nth_served (s : AppState) (k : Nat) : Option ToolArguments :=
  (try_dequeue (afterDequeues k s)).1

/-- The empty shared state, as built by AppState.new. -/
def emptyState : AppState :=
  { process_queue := [], output_map := [], trigger_count := 0 }

/-- Lookup after insert of the same key finds the inserted entry. -/
theorem mapLookup_mapInsert_self (m : List (Uuid × PendingEntry)) (k : Uuid)
    (v : PendingEntry) : mapLookup (mapInsert m k v) k = some v := by
  simp [mapInsert, mapLookup]

/-- Lookup after erase of the same key finds nothing. -/
theorem mapLookup_mapErase_self (m : List (Uuid × PendingEntry)) (k : Uuid) :
    mapLookup (mapErase m k) k = none := by
  induction m with
  | nil => rfl
  | cons p rest ih =>
    rcases p with ⟨k1, v⟩
    by_cases h : k1 = k
    · simpa [mapErase, List.filter_cons, h] using ih
    · simpa [mapErase, List.filter_cons, h, mapLookup] using ih

/-- Erasing a key right after inserting it is the same as erasing it from
the original map. -/
theorem mapErase_mapInsert_self (m : List (Uuid × PendingEntry)) (k : Uuid)
    (v : PendingEntry) : mapErase (mapInsert m k v) k = mapErase m k := by
  simp [mapInsert, mapErase, List.filter_filter]

/-- The k-th pop of the queue serves exactly the k-th element of the
queue: pops come off the head in list order. -/
theorem nth_served_eq_get (k : Nat) (s : AppState) :
    nth_served s k = s.process_queue.get? k := by
  induction k generalizing s with
  | zero =>
    rcases hq : s.process_queue with _ | ⟨t, rest⟩ <;>
      simp [nth_served, afterDequeues, try_dequeue, hq]
  | succ k ih =>
    have key : nth_served s (k + 1) = nth_served (try_dequeue s).2 k := rfl
    rcases hq : s.process_queue with _ | ⟨t, rest⟩
    · have h2 : (try_dequeue s).2 = s := by simp [try_dequeue, hq]
      rw [key, h2, ih, hq]
      rfl
    · have h2 : (try_dequeue s).2 = { s with process_queue := rest } := by
        simp [try_dequeue, hq]
      rw [key, h2, ih]
      simp [hq]

/-- C1 counterexample: posting a Result Message whose identifier has no
pending entry (here id 0 against the empty state) makes response_handler
fail with the Unknown ID report, but the HTTP surface maps it through
Report.into_response to status 500, which is a server error and not a
4xx client error as the claim states. -/
theorem c1_unknown_id_counterexample :
    (response_handler_http emptyState { response := "x", id := 0 }).1.status = 500 ∧
    ¬ (400 ≤ (response_handler_http emptyState { response := "x", id := 0 }).1.status ∧
       (response_handler_http emptyState { response := "x", id := 0 }).1.status < 500) := by
  decide

/-- C1 amended: for every POST /response carrying an identifier with no
matching pending entry, the handler fails with the Unknown ID report and
the failure is surfaced to the host as status 500 with body Something
went wrong (a server error, not a 4xx client error); the handler returns
this response normally with the state unchanged and nothing delivered,
so the process does not crash. -/
theorem c1_unknown_id_is_500 (s : AppState) (payload : RunCommandResponse)
    (h : mapLookup s.output_map payload.id = none) :
    response_handler s payload = (.error "Unknown ID", s, none) ∧
    response_handler_http s payload =
      ({ status := 500, body := "Something went wrong" }, s, none) := by
  constructor
  · simp [response_handler, h]
  · simp [response_handler_http, response_handler, h, Report.into_response]

/-- C1 witness: the amended theorem applied at the empty state and the
Result Message with response x and identifier 0. -/
theorem c1_unknown_id_is_500_witness :
    mapLookup emptyState.output_map
      ({ response := "x", id := 0 } : RunCommandResponse).id = none ∧
    (response_handler emptyState { response := "x", id := 0 } =
      (.error "Unknown ID", emptyState, none) ∧
    response_handler_http emptyState { response := "x", id := 0 } =
      ({ status := 500, body := "Something went wrong" }, emptyState, none)) :=
  ⟨by decide, c1_unknown_id_is_500 emptyState { response := "x", id := 0 } (by decide)⟩

/-- C2 counterexample: a forwarded envelope accepted at POST /proxy (here
a RunCode envelope with identifier 7, against the empty state whose
trigger count is 0) is appended to the queue and pending map but the
resulting trigger count is still 0: the notifier is not fired, so a
party blocked waiting for work is not woken by this append. -/
theorem c2_proxy_no_notify_counterexample :
    emptyState.trigger_count = 0 ∧
    proxy_handler_enqueue emptyState
        { args := .RunCode { command := "x" }, id := some 7 } =
      .ok ({ process_queue := [{ args := .RunCode { command := "x" }, id := some 7 }],
             output_map := [(7, { receiverAttached := true })],
             trigger_count := 0 }, 7) := by
  decide

/-- C2 amended: a direct tool invocation fires the notifier after
appending its envelope (the trigger count increases by one and the
envelope sits at the queue tail), but an envelope accepted at POST
/proxy is appended to the queue and pending map with the trigger count
unchanged: the proxy append fires no notifier, so a party blocked
waiting for work is not woken by it. -/
theorem c2_notifier_fired_only_by_direct_enqueue (s : AppState)
    (args a : ToolArgumentValues) (fresh i : Uuid) :
    (generic_tool_run_enqueue s args fresh).1.trigger_count = s.trigger_count + 1 ∧
    (generic_tool_run_enqueue s args fresh).1.process_queue =
      s.process_queue ++ [{ args := args, id := some fresh }] ∧
    proxy_handler_enqueue s { args := a, id := some i } =
      .ok ({ process_queue := s.process_queue ++ [{ args := a, id := some i }],
             output_map := mapInsert s.output_map i { receiverAttached := true },
             trigger_count := s.trigger_count }, i) :=
  ⟨rfl, rfl, rfl⟩

/-- C8: whatever Result the waiting tool invocation receives, the
translation in generic_tool_run turns an Ok payload into a successful
tool result and an Err payload into a tool-level error result, and in
both cases the protocol-level answer is Ok (a structured tool answer,
never a protocol-transport error). -/
theorem c8_received_result_translation (s : AppState) (id : Uuid) (x e : String) :
    generic_tool_run_finish s id (some (.ok x)) =
      .ok (.success [x], { s with output_map := mapErase s.output_map id }) ∧
    generic_tool_run_finish s id (some (.error e)) =
      .ok (.error [e], { s with output_map := mapErase s.output_map id }) :=
  ⟨rfl, rfl⟩

/-- C3 counterexample: one relay iteration over a state holding a single
queued envelope with identifier 1 whose waiting invocation has detached
its receiver; the transport call succeeds and the reply decodes, but
tx.send(...).unwrap() fails, so the iteration outcome is panicked: the
relay loop does not survive this per-command failure, refuting the claim
that every single-command failure is scoped to that one command. -/
theorem c3_detached_receiver_panics_counterexample :
    dud_proxy_iter
        { process_queue := [{ args := .RunCode { command := "c" }, id := some 1 }],
          output_map := [(1, { receiverAttached := false })],
          trigger_count := 0 }
        (.replyOk { response := "r", id := 1 }) = (.panicked, none) := by
  decide

/-- C3 amended: a transport failure is scoped to the one command, the
entry is abandoned and the loop continues; an undecodable reply is also
scoped, delivered to the attached waiting invocation as an error result
with the loop continuing; but when the waiting invocation has detached
its receiver, the unwrap on the channel send panics the relay loop
instead of abandoning just that command. -/
theorem c3_relay_failure_scoping (e : ToolArguments) (rest : List ToolArguments)
    (m : List (Uuid × PendingEntry)) (tc : Nat) (a : ToolArgumentValues) (i : Uuid)
    (d : String) (r : RunCommandResponse) :
    dud_proxy_iter { process_queue := e :: rest, output_map := m, trigger_count := tc }
        .failure =
      (.continued { process_queue := rest, output_map := m, trigger_count := tc },
       none) ∧
    dud_proxy_iter
        { process_queue := { args := a, id := some i } :: rest,
          output_map := mapInsert m i { receiverAttached := true },
          trigger_count := tc } (.replyBad d) =
      (.continued { process_queue := rest, output_map := mapErase m i,
                    trigger_count := tc },
       some (.error d)) ∧
    dud_proxy_iter
        { process_queue := { args := a, id := some i } :: rest,
          output_map := mapInsert m i { receiverAttached := false },
          trigger_count := tc } (.replyOk r) =
      (.panicked, none) := by
  refine ⟨rfl, ?_, ?_⟩
  · simp [dud_proxy_iter, try_dequeue, mapLookup_mapInsert_self, mapErase_mapInsert_self]
  · simp [dud_proxy_iter, try_dequeue, mapLookup_mapInsert_self]

/-- C9: POST /proxy fails when the forwarded envelope carries no
identifier; with an identifier i it appends the envelope at the tail of
the owner queue and inserts a pending entry keyed by i, producing
exactly the queue and pending map that a direct tool invocation with the
same arguments and identifier would produce; the handler then suspends
on its channel, and once the result X is delivered for i it returns the
Result Message carrying the same identifier i and response X, with the
pending entry removed. -/
theorem c9_proxy_handler_behavior (s : AppState) (a : ToolArgumentValues)
    (i : Uuid) (X : String) :
    proxy_handler_enqueue s { args := a, id := none } =
      .error "Got proxy command with no id" ∧
    proxy_handler_enqueue s { args := a, id := some i } =
      .ok ({ process_queue := s.process_queue ++ [{ args := a, id := some i }],
             output_map := mapInsert s.output_map i { receiverAttached := true },
             trigger_count := s.trigger_count }, i) ∧
    (generic_tool_run_enqueue s a i).1.process_queue =
      s.process_queue ++ [{ args := a, id := some i }] ∧
    (generic_tool_run_enqueue s a i).1.output_map =
      mapInsert s.output_map i { receiverAttached := true } ∧
    proxy_handler_receive
        { process_queue := s.process_queue,
          output_map := mapInsert s.output_map i { receiverAttached := true },
          trigger_count := s.trigger_count } i (some (.ok X)) =
      .ok ({ response := X, id := i },
           { process_queue := s.process_queue,
             output_map := mapErase s.output_map i,
             trigger_count := s.trigger_count }) := by
  refine ⟨rfl, rfl, rfl, rfl, ?_⟩
  simp [proxy_handler_receive, mapErase_mapInsert_self]

/-- C10: on POST /response with a known identifier whose waiting receiver
has detached, the pending entry is removed from the map before the
channel delivery is attempted and the removal is not rolled back when
the send fails: the handler reports the channel-closed error while the
entry is gone, nothing is delivered, and an immediate retry with the
same identifier fails with the Unknown ID report. -/
theorem c10_removal_not_rolled_back (s : AppState) (payload : RunCommandResponse)
    (h : mapLookup s.output_map payload.id = some { receiverAttached := false }) :
    response_handler s payload =
      (.error "channel closed",
       { s with output_map := mapErase s.output_map payload.id }, none) ∧
    mapLookup (mapErase s.output_map payload.id) payload.id = none ∧
    response_handler { s with output_map := mapErase s.output_map payload.id } payload =
      (.error "Unknown ID",
       { s with output_map := mapErase s.output_map payload.id }, none) := by
  refine ⟨?_, mapLookup_mapErase_self _ _, ?_⟩
  · simp [response_handler, h]
  · simp [response_handler, mapLookup_mapErase_self]

/-- C10 witness: the theorem applied at a state holding one pending entry
for identifier 3 whose receiver has detached, and the Result Message
with response x and identifier 3. -/
theorem c10_removal_not_rolled_back_witness :
    mapLookup [(3, ({ receiverAttached := false } : PendingEntry))]
      ({ response := "x", id := 3 } : RunCommandResponse).id =
      some { receiverAttached := false } ∧
    (response_handler
        { process_queue := [], output_map := [(3, { receiverAttached := false })],
          trigger_count := 0 } { response := "x", id := 3 } =
      (.error "channel closed",
       { process_queue := [],
         output_map := mapErase [(3, { receiverAttached := false })] 3,
         trigger_count := 0 }, none) ∧
    mapLookup (mapErase [(3, { receiverAttached := false })] 3) 3 = none ∧
    response_handler
        { process_queue := [],
          output_map := mapErase [(3, { receiverAttached := false })] 3,
          trigger_count := 0 } { response := "x", id := 3 } =
      (.error "Unknown ID",
       { process_queue := [],
         output_map := mapErase [(3, { receiverAttached := false })] 3,
         trigger_count := 0 }, none)) :=
  ⟨by decide,
   c10_removal_not_rolled_back
     { process_queue := [], output_map := [(3, { receiverAttached := false })],
       trigger_count := 0 } { response := "x", id := 3 } (by decide)⟩

/-- Erasing the same key twice is the same as erasing it once. -/
theorem mapErase_idem (m : List (Uuid × PendingEntry)) (k : Uuid) :
    mapErase (mapErase m k) k = mapErase m k := by
  simp [mapErase, List.filter_filter]

/-- C4: round trip.  Starting from a state with an empty queue, a tool
invocation enqueues its envelope with identifier i; the Poll Endpoint
then dequeues exactly that envelope; posting the result X for i at the
Result Endpoint removes the pending entry and delivers Ok X into the
channel of the suspended invocation; and the invocation, on receiving
it, observes exactly the successful tool result carrying X. -/
theorem c4_round_trip (s : AppState) (args : ToolArgumentValues) (i : Uuid)
    (X : String) (hq : s.process_queue = []) :
    request_handler_run [(generic_tool_run_enqueue s args i).1] =
      (.envelope { args := args, id := some i },
       some { process_queue := [],
              output_map := mapInsert s.output_map i { receiverAttached := true },
              trigger_count := s.trigger_count + 1 }) ∧
    response_handler
        { process_queue := [],
          output_map := mapInsert s.output_map i { receiverAttached := true },
          trigger_count := s.trigger_count + 1 }
        { response := X, id := i } =
      (.ok (),
       { process_queue := [], output_map := mapErase s.output_map i,
         trigger_count := s.trigger_count + 1 },
       some (.ok X)) ∧
    generic_tool_run_finish
        { process_queue := [], output_map := mapErase s.output_map i,
          trigger_count := s.trigger_count + 1 } i (some (.ok X)) =
      .ok (.success [X],
           { process_queue := [], output_map := mapErase s.output_map i,
             trigger_count := s.trigger_count + 1 }) := by
  refine ⟨?_, ?_, ?_⟩
  · simp [request_handler_run, try_dequeue, generic_tool_run_enqueue,
          ToolArguments.new, ToolArguments.with_id, hq]
  · simp [response_handler, mapLookup_mapInsert_self, mapErase_mapInsert_self]
  · simp [generic_tool_run_finish, mapErase_idem]

/-- C4 witness: the round trip run from the empty state with the spec
scenario, a run_code envelope, identifier 1 and result 2. -/
theorem c4_round_trip_witness :
    emptyState.process_queue = [] ∧
    (request_handler_run
        [(generic_tool_run_enqueue emptyState (.RunCode { command := "return 1+1" }) 1).1] =
      (.envelope { args := .RunCode { command := "return 1+1" }, id := some 1 },
       some { process_queue := [],
              output_map := mapInsert emptyState.output_map 1 { receiverAttached := true },
              trigger_count := emptyState.trigger_count + 1 }) ∧
    response_handler
        { process_queue := [],
          output_map := mapInsert emptyState.output_map 1 { receiverAttached := true },
          trigger_count := emptyState.trigger_count + 1 }
        { response := "2", id := 1 } =
      (.ok (),
       { process_queue := [], output_map := mapErase emptyState.output_map 1,
         trigger_count := emptyState.trigger_count + 1 },
       some (.ok "2")) ∧
    generic_tool_run_finish
        { process_queue := [], output_map := mapErase emptyState.output_map 1,
          trigger_count := emptyState.trigger_count + 1 } 1 (some (.ok "2")) =
      .ok (.success ["2"],
           { process_queue := [], output_map := mapErase emptyState.output_map 1,
             trigger_count := emptyState.trigger_count + 1 })) :=
  ⟨rfl, c4_round_trip emptyState (.RunCode { command := "return 1+1" }) 1 "2" rfl⟩

/-- C5: at-most-one delivery.  If a POST /response for some identifier
succeeds, the pending entry is removed along the way, so a second POST
/response with the same identifier finds no pending entry and fails
with the Unknown ID report. -/
theorem c5_at_most_one_delivery (s s1 : AppState) (payload : RunCommandResponse)
    (d : Option RResult)
    (h : response_handler s payload = (.ok (), s1, d)) :
    response_handler s1 payload = (.error "Unknown ID", s1, none) := by
  unfold response_handler at h
  rcases hm : mapLookup s.output_map payload.id with _ | tx
  · rw [hm] at h
    simp at h
  · rw [hm] at h
    by_cases ha : tx.receiverAttached
    · simp [ha] at h
      obtain ⟨hs1, -⟩ := h
      rw [← hs1]
      simp [response_handler, mapLookup_mapErase_self]
    · simp [ha] at h

/-- C5 witness: the theorem applied at a state holding one pending entry
for identifier 5; the first delivery succeeds and the second fails with
the Unknown ID report. -/
theorem c5_at_most_one_delivery_witness :
    response_handler
        { process_queue := [], output_map := [(5, { receiverAttached := true })],
          trigger_count := 0 } { response := "x", id := 5 } =
      (.ok (), { process_queue := [], output_map := [], trigger_count := 0 },
       some (.ok "x")) ∧
    response_handler { process_queue := [], output_map := [], trigger_count := 0 }
        { response := "x", id := 5 } =
      (.error "Unknown ID",
       { process_queue := [], output_map := [], trigger_count := 0 }, none) :=
  ⟨by decide,
   c5_at_most_one_delivery
     { process_queue := [], output_map := [(5, { receiverAttached := true })],
       trigger_count := 0 }
     { process_queue := [], output_map := [], trigger_count := 0 }
     { response := "x", id := 5 } (some (.ok "x")) (by decide)⟩

/-- C6: FIFO ordering.  Both the Poll Endpoint and the relay loop serve
the queue through try_dequeue, which pops the head; the k-th pop yields
exactly the k-th element of the queue, so for a command A sitting before
a command B (index i before index j, both present), A is served at the
earlier pop i and B at the later pop j: A is dequeued no later than B. -/
theorem c6_fifo_order (s : AppState) (i j : Nat) (hij : i < j)
    (hj : j < s.process_queue.length) :
    (nth_served s i).isSome = true ∧
    nth_served s i = s.process_queue.get? i ∧
    nth_served s j = s.process_queue.get? j := by
  refine ⟨?_, nth_served_eq_get i s, nth_served_eq_get j s⟩
  rw [nth_served_eq_get]
  have hi : i < s.process_queue.length := lt_trans hij hj
  simp [List.getElem?_eq_getElem hi]

/-- C6 witness: the theorem applied at a two-element queue with indices 0
and 1. -/
theorem c6_fifo_order_witness :
    (0 : Nat) < 1 ∧
    1 < ({ process_queue := [{ args := .RunCode { command := "a" }, id := some 1 },
                             { args := .RunCode { command := "b" }, id := some 2 }],
           output_map := [], trigger_count := 0 } : AppState).process_queue.length ∧
    ((nth_served
        { process_queue := [{ args := .RunCode { command := "a" }, id := some 1 },
                            { args := .RunCode { command := "b" }, id := some 2 }],
          output_map := [], trigger_count := 0 } 0).isSome = true ∧
     nth_served
        { process_queue := [{ args := .RunCode { command := "a" }, id := some 1 },
                            { args := .RunCode { command := "b" }, id := some 2 }],
          output_map := [], trigger_count := 0 } 0 =
       ({ process_queue := [{ args := .RunCode { command := "a" }, id := some 1 },
                            { args := .RunCode { command := "b" }, id := some 2 }],
          output_map := [], trigger_count := 0 } : AppState).process_queue.get? 0 ∧
     nth_served
        { process_queue := [{ args := .RunCode { command := "a" }, id := some 1 },
                            { args := .RunCode { command := "b" }, id := some 2 }],
          output_map := [], trigger_count := 0 } 1 =
       ({ process_queue := [{ args := .RunCode { command := "a" }, id := some 1 },
                            { args := .RunCode { command := "b" }, id := some 2 }],
          output_map := [], trigger_count := 0 } : AppState).process_queue.get? 1) :=
  ⟨by decide, by decide,
   c6_fifo_order
     { process_queue := [{ args := .RunCode { command := "a" }, id := some 1 },
                         { args := .RunCode { command := "b" }, id := some 2 }],
       output_map := [], trigger_count := 0 } 0 1 (by decide) (by decide)⟩

/-- C7: long-poll bound.  If the queue is empty at every wake the handler
observes inside the poll window (the tokio timeout admits only finitely
many wakes before the 15 second window elapses, so the call cannot hang
indefinitely), the GET /request call answers the distinguished no-work
outcome: status 423 LOCKED with an empty body, produced as a normal
response and not through the error path; and the configured window is
15 seconds. -/
theorem c7_long_poll_bound (trace : List AppState)
    (h : trace.all (fun s => s.process_queue.isEmpty) = true) :
    request_handler_run trace = (.locked, none) ∧
    RequestOutcome.locked.status = 423 ∧
    RequestOutcome.locked.bodyIsEmpty = true ∧
    LONG_POLL_DURATION = 15 := by
  refine ⟨?_, rfl, rfl, rfl⟩
  induction trace with
  | nil => rfl
  | cons s rest ih =>
    simp only [List.all_cons, Bool.and_eq_true] at h
    obtain ⟨h1, h2⟩ := h
    have hq : s.process_queue = [] := by
      simpa using h1
    rw [request_handler_run]
    simp only [try_dequeue, hq]
    exact ih h2

/-- C7 witness: the theorem applied at a one-wake trace over the empty
state. -/
theorem c7_long_poll_bound_witness :
    [emptyState].all (fun s => s.process_queue.isEmpty) = true ∧
    (request_handler_run [emptyState] = (.locked, none) ∧
     RequestOutcome.locked.status = 423 ∧
     RequestOutcome.locked.bodyIsEmpty = true ∧
     LONG_POLL_DURATION = 15) :=
  ⟨by decide, c7_long_poll_bound [emptyState] (by decide)⟩
